/-
Verification of the transport connection abstraction in
`packages/firestore/src/platform_node/grpc_connection.ts`.

The development shallowly embeds the TypeScript source: JS objects holding
header key/value pairs become association lists, `Token | null` becomes
`Option Token`, nullable/undefined-able JS values become explicit sum types,
callback-driven event handling becomes a step function over an explicit
event trace, and observable effects (caller callbacks, transport writes,
assertion failures) become an emitted action list.
-/
import Mathlib

namespace GrpcConnection

/-- A credential token (`Token` from `api/credentials`): a credential kind
tag and a set of auth header key/value pairs.  JS object property maps are
embedded as association lists (keys unique, first match wins on lookup). -/
structure Token where
  type : String
  authHeaders : List (String × String)
  deriving DecidableEq

/-- The value of the JS expression `tok && tok.authHeaders['Authorization']`:
`null` when the token is null, `undefined` when the token exists but its
header object has no `Authorization` property, and the string otherwise.
JS strict equality `===` distinguishes `null` from `undefined`. -/
inductive AuthVal where
  | jsNull
  | jsUndefined
  | str (s : String)
  deriving DecidableEq

/-- Extracts the primary authorization value exactly as
`tokenA && tokenA.authHeaders['Authorization']` does in `sameToken`. -/
def authValue : Option Token → AuthVal
  | none => AuthVal.jsNull
  | some t =>
    match t.authHeaders.lookup "Authorization" with
    | none => AuthVal.jsUndefined
    | some s => AuthVal.str s

/-- `GrpcConnection.sameToken`: two tokens are the same iff the extracted
`Authorization` values are strictly (`===`) equal. -/
def sameToken (tokenA tokenB : Option Token) : Bool :=
  authValue tokenA = authValue tokenB

/-- `CachedStub`: the stub handle (represented by an opaque identifier)
paired with the token it was built with. -/
structure CachedStub where
  stub : Nat
  token : Option Token
  deriving DecidableEq

/-- The rebuild condition of `ensureActiveStub`:
`!this.cachedStub || !this.sameToken(this.cachedStub.token, token)`. -/
def needsRebuild (cachedStub : Option CachedStub) (token : Option Token) : Bool :=
  match cachedStub with
  | none => true
  | some c => !(sameToken c.token token)

/-- `GrpcConnection.ensureActiveStub`.  Stub construction (the
`createHeaders` call plus `new this.firestore.Firestore(...)`) is an
expensive, possibly-throwing collaborator, embedded as the fallible
parameter `buildStub`.  When the cached token matches, the cached stub is
returned and `buildStub` is never consulted; when construction throws, the
exception propagates (`Except.error`) before the cache assignment runs, so
the cache keeps its prior value. -/
def ensureActiveStub (buildStub : Option Token → Except String Nat)
    (cachedStub : Option CachedStub) (token : Option Token) :
    Except String Nat × Option CachedStub :=
  if needsRebuild cachedStub token then
    match buildStub token with
    | Except.ok stub => (Except.ok stub, some { stub := stub, token := token })
    | Except.error e => (Except.error e, cachedStub)
  else
    match cachedStub with
    | some c => (Except.ok c.stub, some c)
    | none => (Except.error "unreachable: needsRebuild is true when the cache is empty", none)

/-- `DatabaseId` (from `core/database_info`): project and database
identifiers, the parts of `DatabaseInfo` read by `createHeaders`. -/
structure DatabaseId where
  projectId : String
  database : String
  deriving DecidableEq

/-- `DatabaseInfo`: the connection target supplied at construction. -/
structure DatabaseInfo where
  databaseId : DatabaseId
  host : String
  deriving DecidableEq

/-- `grpc.Metadata.set`: associates the key with the value, replacing any
previous value stored for that key. -/
def metaSet (metadata : List (String × String)) (key value : String) :
    List (String × String) :=
  metadata.filter (fun p => !(p.1 == key)) ++ [(key, value)]

/-- The metadata produced by the generator closure inside `createHeaders`:
first every own property of `token.authHeaders` (when a token is present),
then `x-goog-api-client` with the fixed composite value, then the
`google-cloud-resource-prefix` routing header derived from the target. -/
def generatedMetadata (apiClientValue : String) (databaseInfo : DatabaseInfo)
    (token : Option Token) : List (String × String) :=
  let metadata : List (String × String) := []
  let metadata :=
    match token with
    | some t => t.authHeaders.foldl (fun m kv => metaSet m kv.1 kv.2) metadata
    | none => metadata
  let metadata := metaSet metadata "x-goog-api-client" apiClientValue
  metaSet metadata "google-cloud-resource-prefix"
    ("projects/" ++ databaseInfo.databaseId.projectId ++ "/databases/" ++
      databaseInfo.databaseId.database)

/-- `createHeaders`: asserts that a supplied token is OAuth, then wires the
metadata generator into the call credentials.  `none` embeds the assertion
failure; `some` carries the metadata the generator attaches to each call. -/
def createHeaders (apiClientValue : String) (databaseInfo : DatabaseInfo)
    (token : Option Token) : Option (List (String × String)) :=
  if (match token with | none => true | some t => t.type = "OAuth") then
    some (generatedMetadata apiClientValue databaseInfo token)
  else
    none

/-- `FirestoreError` as constructed by this file: a domain error code
(`mapCodeFromRpcCode` applied to a transport status code) and a message. -/
structure FirestoreError where
  code : Nat
  message : String
  deriving DecidableEq

section StreamMachine

variable {Req Resp : Type}

/-- The events that can reach the duplex stream bridge built by
`openStream`: the caller operations (`send` routed through `sendFn`,
`close()` routed through `closeFn`), the five registered `grpcStream`
listeners, and the firing of the `setTimeout` that simulates `open`. -/
inductive StreamEvent (Req Resp : Type) where
  | send (msg : Req)
  | localClose
  | grpcData (msg : Resp)
  | grpcEnd
  | grpcFinish
  | grpcError (code : Nat) (message : String)
  | grpcStatus (code : Nat) (details : String)
  | timerOpen
  deriving DecidableEq

/-- The observable effects of processing one event: the caller-visible
callbacks (`callOnOpen`, `callOnMessage`, `callOnClose`), the transport
operations (`grpcStream.write`, `grpcStream.end`), a write exception
rethrown to the caller of `send`, and a fatal assertion failure. -/
inductive Action (Req Resp : Type) where
  | callOnOpen
  | callOnMessage (msg : Resp)
  | callOnClose (err : Option FirestoreError)
  | grpcWrite (msg : Req)
  | grpcEndCall
  | sendThrow
  | assertFail (msg : String)
  deriving DecidableEq

/-- The local `close` function of `openStream`: guarded by the `closed`
flag, it transitions to closed, fires `callOnClose(err)` and half-closes
the transport stream; when already closed it does nothing. -/
def closeTransition (closed : Bool) (err : Option FirestoreError) :
    Bool × List (Action Req Resp) :=
  if closed then
    (closed, [])
  else
    (true, [Action.callOnClose err, Action.grpcEndCall])

/-- One step of the duplex bridge: the `sendFn`, the `closeFn`, the five
`grpcStream.on(...)` handlers and the simulated-open timer, translated
clause by clause from `openStream`.  `mapCode` embeds the external
`mapCodeFromRpcCode` collaborator and `writeFails` the transport-level
outcome of `grpcStream.write`. -/
def streamStep (mapCode : Nat → Nat) (writeFails : Req → Bool) (closed : Bool) :
    StreamEvent Req Resp → Bool × List (Action Req Resp)
  | StreamEvent.send msg =>
    if !closed then
      if writeFails msg then (closed, [Action.sendThrow])
      else (closed, [Action.grpcWrite msg])
    else
      (closed, [])
  | StreamEvent.localClose => closeTransition closed none
  | StreamEvent.grpcData msg =>
    if !closed then (closed, [Action.callOnMessage msg]) else (closed, [])
  | StreamEvent.grpcEnd => closeTransition closed none
  | StreamEvent.grpcFinish =>
    if closed then (closed, [])
    else (closed, [Action.assertFail "Received \"finish\" event without close() being called."])
  | StreamEvent.grpcError code message =>
    closeTransition closed (some { code := mapCode code, message := message })
  | StreamEvent.grpcStatus code details =>
    if closed then (closed, [])
    else
      (closed,
        [Action.assertFail
          ("status event received before \"end\" or \"error\". code: " ++
            toString code ++ " details: " ++ details)])
  | StreamEvent.timerOpen => (closed, [Action.callOnOpen])

/-- Runs the bridge over a trace of events, accumulating the emitted
actions in order. -/
def streamRun (mapCode : Nat → Nat) (writeFails : Req → Bool) :
    Bool → List (StreamEvent Req Resp) → Bool × List (Action Req Resp)
  | closed, [] => (closed, [])
  | closed, ev :: evs =>
    let r1 := streamStep mapCode writeFails closed ev
    let r2 := streamRun mapCode writeFails r1.1 evs
    (r2.1, r1.2 ++ r2.2)

/-- The three close triggers: a local `close()`, a remote end-of-stream,
and a remote error. -/
def isCloseTrigger : StreamEvent Req Resp → Bool
  | StreamEvent.localClose => true
  | StreamEvent.grpcEnd => true
  | StreamEvent.grpcError _ _ => true
  | _ => false

/-- The close-notification payload carried by a close trigger: `none` for a
local close or a remote end, the translated domain error for a remote
error. -/
def triggerErr (mapCode : Nat → Nat) : StreamEvent Req Resp → Option FirestoreError
  | StreamEvent.grpcError code message => some { code := mapCode code, message := message }
  | _ => none

/-- Recognizes the firing of the simulated-open timer. -/
def isTimerOpen : StreamEvent Req Resp → Bool
  | StreamEvent.timerOpen => true
  | _ => false

/-- Recognizes close-notification actions. -/
def isCallOnClose : Action Req Resp → Bool
  | Action.callOnClose _ => true
  | _ => false

/-- Recognizes the actions delivered to the caller's three callbacks. -/
def isCallerCallback : Action Req Resp → Bool
  | Action.callOnOpen => true
  | Action.callOnMessage _ => true
  | Action.callOnClose _ => true
  | _ => false

/-- The close-notification actions a trace produces: one per first close
trigger, none when the trace holds no trigger. -/
def closeOut (mapCode : Nat → Nat) (evs : List (StreamEvent Req Resp)) :
    List (Action Req Resp) :=
  match evs.find? isCloseTrigger with
  | some ev => [Action.callOnClose (triggerErr mapCode ev)]
  | none => []

end StreamMachine

section RpcAdapters

variable {Resp : Type}

/-- The single invocation of the completion callback a unary transport call
makes: either a service error carrying a status code and message, or a
response value (`grpcError` is checked first in `invokeRPC`). -/
inductive UnaryOutcome (Resp : Type) where
  | failure (code : Nat) (message : String)
  | success (value : Resp)
  deriving DecidableEq

/-- The body of the callback `invokeRPC` hands to the unary RPC: a transport
error is translated to `new FirestoreError(mapCodeFromRpcCode(code), message)`
and rejects; otherwise the value resolves. -/
def invokeRPCCallback (mapCode : Nat → Nat) :
    UnaryOutcome Resp → Except FirestoreError Resp
  | UnaryOutcome.failure code message =>
    Except.error { code := mapCode code, message := message }
  | UnaryOutcome.success value => Except.ok value

/-- Modelled from the spec: `nodePromise` (`util/node_api`, not under
`src/`) adapts a node-style callback into a future that settles on the
first callback invocation and ignores every later one. -/
def nodePromise (calls : List (Except FirestoreError Resp)) :
    Option (Except FirestoreError Resp) :=
  calls.head?

/-- `GrpcConnection.invokeRPC` over the sequence of callback invocations the
transport performs (the transport contract is a single invocation; the
future settles on the first either way). -/
def invokeRPC (mapCode : Nat → Nat) (outcomes : List (UnaryOutcome Resp)) :
    Option (Except FirestoreError Resp) :=
  nodePromise (outcomes.map (invokeRPCCallback mapCode))

/-- The events a server-streaming call delivers: `data`, a clean `end`, or
an `error`. -/
inductive ReadEvent (Resp : Type) where
  | data (response : Resp)
  | endOfStream
  | streamError (code : Nat) (message : String)
  deriving DecidableEq

/-- The mutable state of `invokeStreamingRPC`: the `results` accumulator
array and the `responseDeferred` future.  Modelled from the spec for the
part not under `src/`: `Deferred` (`util/promise`) settles at most once,
so a second `resolve`/`reject` leaves `settled` unchanged. -/
structure CollectState (Resp : Type) where
  results : List Resp
  settled : Option (Except FirestoreError (List Resp))

/-- One stream event processed by the three handlers `invokeStreamingRPC`
registers: `data` pushes onto `results` (unconditionally, as in the
source), `end` resolves with the accumulated results, `error` rejects with
the translated domain error. -/
def collectStep (mapCode : Nat → Nat) (st : CollectState Resp) :
    ReadEvent Resp → CollectState Resp
  | ReadEvent.data response => { st with results := st.results ++ [response] }
  | ReadEvent.endOfStream =>
    match st.settled with
    | none => { st with settled := some (Except.ok st.results) }
    | some _ => st
  | ReadEvent.streamError code message =>
    match st.settled with
    | none =>
      { st with settled := some (Except.error { code := mapCode code, message := message }) }
    | some _ => st

/-- `GrpcConnection.invokeStreamingRPC` over a trace of stream events: the
outcome of the returned promise (`none` while still pending). -/
def invokeStreamingRPC (mapCode : Nat → Nat) (evs : List (ReadEvent Resp)) :
    Option (Except FirestoreError (List Resp)) :=
  (evs.foldl (collectStep mapCode) { results := [], settled := none }).settled

end RpcAdapters

/-! Theorems about the credential-scoped client cache. -/

/-- C3: a new stub is constructed iff there is no cached stub or the
requested token has a different `Authorization` value than the cached one.
When the tokens are equivalent the cached stub instance is returned with
the cache untouched, and the result does not depend on `buildStub` at all,
so neither header computation nor stub construction happens; when a rebuild
is needed, the freshly constructed stub is adopted and cached with the
requested token. -/
theorem ensureActiveStub_cache_correct (cachedStub : Option CachedStub)
    (token : Option Token) :
    (∀ c, cachedStub = some c → sameToken c.token token = true →
      ∀ buildStub, ensureActiveStub buildStub cachedStub token = (Except.ok c.stub, some c))
    ∧ (needsRebuild cachedStub token = true →
      ∀ buildStub stub, buildStub token = Except.ok stub →
        ensureActiveStub buildStub cachedStub token =
          (Except.ok stub, some { stub := stub, token := token })) := by
  constructor
  · intro c hc hsame buildStub
    subst hc
    simp [ensureActiveStub, needsRebuild, hsame]
  · intro hreb buildStub stub hok
    simp [ensureActiveStub, hreb, hok]

/-- Witness for C3: a cache hit on an equivalent token returns the cached
stub 7 without consulting the constructor, and a miss on an empty cache
adopts the constructed stub 42. -/
theorem ensureActiveStub_cache_correct_witness :
    ensureActiveStub (fun _ => Except.ok 99)
        (some { stub := 7, token := some { type := "OAuth", authHeaders := [("Authorization", "Bearer x")] } })
        (some { type := "OAuth", authHeaders := [("Authorization", "Bearer x"), ("extra", "e")] }) =
      (Except.ok 7,
        some { stub := 7, token := some { type := "OAuth", authHeaders := [("Authorization", "Bearer x")] } })
    ∧ ensureActiveStub (fun _ => Except.ok 42) none
        (some { type := "OAuth", authHeaders := [("Authorization", "Bearer y")] }) =
      (Except.ok 42,
        some { stub := 42,
               token := some { type := "OAuth", authHeaders := [("Authorization", "Bearer y")] } }) :=
  ⟨(ensureActiveStub_cache_correct _ _).1 _ rfl (by decide) _,
   (ensureActiveStub_cache_correct _ _).2 (by decide) _ _ rfl⟩

/-- C8: when a rebuild is needed and stub construction throws, the
exception propagates to the caller and the cache keeps its prior value. -/
theorem ensureActiveStub_construction_failure
    (buildStub : Option Token → Except String Nat) (cachedStub : Option CachedStub)
    (token : Option Token) (e : String)
    (hreb : needsRebuild cachedStub token = true)
    (herr : buildStub token = Except.error e) :
    ensureActiveStub buildStub cachedStub token = (Except.error e, cachedStub) := by
  simp [ensureActiveStub, hreb, herr]

/-- Witness for C8: a failing constructor leaves the previously cached
stub 3 (built for a null token) in place. -/
theorem ensureActiveStub_construction_failure_witness :
    ensureActiveStub (fun _ => Except.error "boom")
        (some { stub := 3, token := none })
        (some { type := "OAuth", authHeaders := [("Authorization", "Bearer z")] }) =
      (Except.error "boom", some { stub := 3, token := none }) :=
  ensureActiveStub_construction_failure _ _ _ _ (by decide) rfl

/-- C10: token equivalence depends only on the extracted `Authorization`
value.  Two non-null tokens both lacking an `Authorization` header are
equivalent (the cached stub is reused even though their other headers
differ), while a null token and a non-null token lacking `Authorization`
extract to `null` and `undefined` respectively, are not equivalent, and
force a rebuild. -/
theorem sameToken_authorization_only (t1 t2 : Token) (s : Nat)
    (buildStub : Option Token → Except String Nat)
    (h1 : t1.authHeaders.lookup "Authorization" = none)
    (h2 : t2.authHeaders.lookup "Authorization" = none) :
    sameToken (some t1) (some t2) = true
    ∧ sameToken none (some t1) = false
    ∧ ensureActiveStub buildStub (some { stub := s, token := some t1 }) (some t2) =
        (Except.ok s, some { stub := s, token := some t1 })
    ∧ needsRebuild (some { stub := s, token := none }) (some t1) = true := by
  have hsame : sameToken (some t1) (some t2) = true := by
    simp [sameToken, authValue, h1, h2]
  refine ⟨hsame, ?_, ?_, ?_⟩
  · simp [sameToken, authValue, h1]
  · simp [ensureActiveStub, needsRebuild, hsame]
  · simp [needsRebuild, sameToken, authValue, h1]

/-! Lemmas about `grpc.Metadata` lookup and the header composition. -/

/-- Looking a key up past a block that does not contain it. -/
theorem lookup_append_of_forall_ne (l ls : List (String × String)) (k : String)
    (h : ∀ p ∈ l, p.1 ≠ k) : (l ++ ls).lookup k = ls.lookup k := by
  induction l with
  | nil => rfl
  | cons p l ih =>
    obtain ⟨a, b⟩ := p
    have ha : a ≠ k := h (a, b) (List.mem_cons_self _ _)
    have hk : (k == a) = false := beq_eq_false_iff_ne.mpr (fun hh => ha hh.symm)
    simp [List.lookup, hk]
    exact ih (fun q hq => h q (List.mem_cons_of_mem _ hq))

/-- Lookup distributes over append, preferring the left block. -/
theorem lookup_append_eq (l ls : List (String × String)) (k : String) :
    (l ++ ls).lookup k =
      (match l.lookup k with
       | some v => some v
       | none => ls.lookup k) := by
  induction l with
  | nil => rfl
  | cons p l ih =>
    obtain ⟨a, b⟩ := p
    by_cases hk : k = a
    · subst hk
      simp [List.lookup]
    · have hk2 : (k == a) = false := beq_eq_false_iff_ne.mpr hk
      simp [List.lookup, hk2, ih]

/-- Filtering out one key leaves lookups of every other key unchanged. -/
theorem lookup_filter_ne (m : List (String × String)) (key k : String)
    (h : k ≠ key) :
    (m.filter (fun p => !(p.1 == key))).lookup k = m.lookup k := by
  induction m with
  | nil => rfl
  | cons p m ih =>
    obtain ⟨a, b⟩ := p
    by_cases ha : a = key
    · subst ha
      have hk : (k == a) = false := beq_eq_false_iff_ne.mpr h
      simp [List.lookup, List.filter, hk, ih]
    · have ha2 : (a == key) = false := beq_eq_false_iff_ne.mpr ha
      by_cases hk : k = a
      · subst hk
        simp [List.lookup, List.filter, ha2]
      · have hk2 : (k == a) = false := beq_eq_false_iff_ne.mpr hk
        simp [List.lookup, List.filter, ha2, hk2, ih]

/-- `Metadata.set` makes the key's lookup return the new value. -/
theorem lookup_metaSet_self (m : List (String × String)) (key value : String) :
    (metaSet m key value).lookup key = some value := by
  unfold metaSet
  rw [lookup_append_of_forall_ne]
  · simp [List.lookup]
  · intro p hp
    have := (List.mem_filter.mp hp).2
    simpa using this

/-- `Metadata.set` leaves every other key's lookup unchanged. -/
theorem lookup_metaSet_ne (m : List (String × String)) (key value k : String)
    (h : k ≠ key) : (metaSet m key value).lookup k = m.lookup k := by
  unfold metaSet
  rw [lookup_append_eq, lookup_filter_ne m key k h]
  have hk : (k == key) = false := beq_eq_false_iff_ne.mpr h
  cases hles : m.lookup k <;> simp [List.lookup, hk]

/-- Folding `Metadata.set` over headers that never mention the key leaves
its lookup unchanged. -/
theorem foldl_metaSet_lookup_of_forall_ne (hs : List (String × String))
    (m : List (String × String)) (k : String) (h : ∀ p ∈ hs, p.1 ≠ k) :
    (hs.foldl (fun acc kv => metaSet acc kv.1 kv.2) m).lookup k = m.lookup k := by
  induction hs generalizing m with
  | nil => rfl
  | cons p hs ih =>
    rw [List.foldl_cons, ih _ (fun q hq => h q (List.mem_cons_of_mem _ hq))]
    exact lookup_metaSet_ne m p.1 p.2 k
      (fun hh => h p (List.mem_cons_self _ _) hh.symm)

/-- Folding `Metadata.set` over a duplicate-free header set installs each
of its pairs. -/
theorem foldl_metaSet_lookup_of_mem (hs : List (String × String))
    (m : List (String × String)) (k v : String)
    (hmem : (k, v) ∈ hs) (hnodup : (hs.map Prod.fst).Nodup) :
    (hs.foldl (fun acc kv => metaSet acc kv.1 kv.2) m).lookup k = some v := by
  induction hs generalizing m with
  | nil => cases hmem
  | cons p hs ih =>
    rw [List.map_cons] at hnodup
    have hnd := List.nodup_cons.mp hnodup
    rcases List.mem_cons.mp hmem with heq | hmem2
    · subst heq
      rw [List.foldl_cons]
      rw [foldl_metaSet_lookup_of_forall_ne hs _ k ?hne]
      · exact lookup_metaSet_self m k v
      case hne =>
        intro q hq hqk
        exact hnd.1 (by simpa [hqk] using List.mem_map_of_mem Prod.fst hq)
    · rw [List.foldl_cons]
      exact ih _ hmem2 hnd.2

/-- Witness for C10: tokens with disjoint non-authorization headers share a
stub, and a null token forces a rebuild against either. -/
theorem sameToken_authorization_only_witness :
    sameToken (some { type := "OAuth", authHeaders := [("x", "1")] })
        (some { type := "OAuth", authHeaders := [("y", "2")] }) = true
    ∧ sameToken none (some { type := "OAuth", authHeaders := [("x", "1")] }) = false
    ∧ ensureActiveStub (fun _ => Except.ok 99)
        (some { stub := 5, token := some { type := "OAuth", authHeaders := [("x", "1")] } })
        (some { type := "OAuth", authHeaders := [("y", "2")] }) =
      (Except.ok 5, some { stub := 5, token := some { type := "OAuth", authHeaders := [("x", "1")] } })
    ∧ needsRebuild (some { stub := 5, token := none })
        (some { type := "OAuth", authHeaders := [("x", "1")] }) = true :=
  sameToken_authorization_only _ _ 5 _ rfl rfl

/-- C7 fails as stated: a token whose header set itself carries an
`x-goog-api-client` pair does not survive into the produced metadata — the
fixed client-identification value, set afterwards, overwrites it, so the
metadata does not contain every key/value pair of the token's header set. -/
theorem createHeaders_token_pair_dropped :
    ((createHeaders "v" { databaseId := { projectId := "p", database := "d" }, host := "h" }
        (some { type := "OAuth", authHeaders := [("x-goog-api-client", "evil")] })).getD []).lookup
        "x-goog-api-client" = some "v"
    ∧ ("x-goog-api-client", "evil") ∉
        ((createHeaders "v" { databaseId := { projectId := "p", database := "d" }, host := "h" }
          (some { type := "OAuth", authHeaders := [("x-goog-api-client", "evil")] })).getD []) := by
  constructor
  · rfl
  · decide

/-- C7 (amended): for an OAuth token (duplicate-free header keys, as a JS
object guarantees), the metadata produced by `createHeaders` maps the
routing header to exactly `projects/{project}/databases/{database}`, maps
`x-goog-api-client` to the fixed composite value, and maps every token
header key to the token's value except for the two reserved keys
`x-goog-api-client` and `google-cloud-resource-prefix`, which the fixed
headers overwrite; in particular `Authorization` is preserved unchanged. -/
theorem createHeaders_metadata (apiClientValue : String)
    (databaseInfo : DatabaseInfo) (t : Token) (metadata : List (String × String))
    (hOAuth : t.type = "OAuth")
    (hnodup : (t.authHeaders.map Prod.fst).Nodup)
    (hmeta : createHeaders apiClientValue databaseInfo (some t) = some metadata) :
    metadata.lookup "google-cloud-resource-prefix" =
      some ("projects/" ++ databaseInfo.databaseId.projectId ++ "/databases/" ++
        databaseInfo.databaseId.database)
    ∧ metadata.lookup "x-goog-api-client" = some apiClientValue
    ∧ (∀ k v, (k, v) ∈ t.authHeaders → k ≠ "x-goog-api-client" →
        k ≠ "google-cloud-resource-prefix" → metadata.lookup k = some v)
    ∧ (∀ v, ("Authorization", v) ∈ t.authHeaders →
        metadata.lookup "Authorization" = some v) := by
  have hmeta2 : metadata = generatedMetadata apiClientValue databaseInfo (some t) := by
    simp [createHeaders, hOAuth] at hmeta
    exact hmeta.symm
  subst hmeta2
  unfold generatedMetadata
  have hlk : ∀ k v, (k, v) ∈ t.authHeaders → k ≠ "x-goog-api-client" →
      k ≠ "google-cloud-resource-prefix" →
      (metaSet (metaSet (t.authHeaders.foldl (fun m kv => metaSet m kv.1 kv.2) [])
          "x-goog-api-client" apiClientValue)
        "google-cloud-resource-prefix"
        ("projects/" ++ databaseInfo.databaseId.projectId ++ "/databases/" ++
          databaseInfo.databaseId.database)).lookup k = some v := by
    intro k v hmem hne1 hne2
    rw [lookup_metaSet_ne _ _ _ _ hne2, lookup_metaSet_ne _ _ _ _ hne1]
    exact foldl_metaSet_lookup_of_mem _ _ _ _ hmem hnodup
  refine ⟨?_, ?_, hlk, ?_⟩
  · exact lookup_metaSet_self _ _ _
  · rw [lookup_metaSet_ne _ _ _ _ (by decide)]
    exact lookup_metaSet_self _ _ _
  · intro v hmem
    exact hlk _ _ hmem (by decide) (by decide)

/-- Witness for C7: the concrete target and token of the spec example. -/
theorem createHeaders_metadata_witness :
    (((createHeaders "gl-node/8 fire/0.1 grpc/1.0"
        { databaseId := { projectId := "p", database := "d" }, host := "h" }
        (some { type := "OAuth", authHeaders := [("Authorization", "Bearer t")] })).getD
        []).lookup "google-cloud-resource-prefix" = some "projects/p/databases/d")
    ∧ (((createHeaders "gl-node/8 fire/0.1 grpc/1.0"
        { databaseId := { projectId := "p", database := "d" }, host := "h" }
        (some { type := "OAuth", authHeaders := [("Authorization", "Bearer t")] })).getD
        []).lookup "Authorization" = some "Bearer t") := by
  have h := createHeaders_metadata "gl-node/8 fire/0.1 grpc/1.0"
    { databaseId := { projectId := "p", database := "d" }, host := "h" }
    { type := "OAuth", authHeaders := [("Authorization", "Bearer t")] }
    (((createHeaders "gl-node/8 fire/0.1 grpc/1.0"
        { databaseId := { projectId := "p", database := "d" }, host := "h" }
        (some { type := "OAuth", authHeaders := [("Authorization", "Bearer t")] })).getD []))
    rfl (by decide) rfl
  refine ⟨?_, h.2.2.2 "Bearer t" (by decide)⟩
  simpa using h.1

/-! Lemmas about the duplex stream bridge state machine. -/

section StreamTheorems

variable {Req Resp : Type}

/-- A step closes the bridge exactly when the event is a close trigger. -/
theorem streamStep_closed_eq (mc : Nat → Nat) (wf : Req → Bool) (closed : Bool)
    (ev : StreamEvent Req Resp) :
    (streamStep mc wf closed ev).1 = (closed || isCloseTrigger ev) := by
  cases ev <;> cases closed <;>
    simp [streamStep, closeTransition, isCloseTrigger] <;>
    split <;> rfl

/-- A run closes the bridge exactly when the trace holds a close trigger. -/
theorem streamRun_closed_eq (mc : Nat → Nat) (wf : Req → Bool) (closed : Bool)
    (evs : List (StreamEvent Req Resp)) :
    (streamRun mc wf closed evs).1 = (closed || evs.any isCloseTrigger) := by
  induction evs generalizing closed with
  | nil => simp [streamRun]
  | cons ev evs ih =>
    simp only [streamRun, List.any_cons]
    rw [ih, streamStep_closed_eq, Bool.or_assoc]

/-- A step taken while the bridge is already closed never emits a
close-notification. -/
theorem streamStep_closed_no_close (mc : Nat → Nat) (wf : Req → Bool)
    (ev : StreamEvent Req Resp) :
    ((streamStep mc wf true ev).2.filter isCallOnClose) = [] := by
  cases ev <;> simp [streamStep, closeTransition, isCallOnClose]

/-- A run started in the closed state never emits a close-notification. -/
theorem streamRun_closed_no_close (mc : Nat → Nat) (wf : Req → Bool)
    (evs : List (StreamEvent Req Resp)) :
    ((streamRun mc wf true evs).2.filter isCallOnClose) = [] := by
  induction evs with
  | nil => rfl
  | cons ev evs ih =>
    have hst : (streamStep mc wf true ev).1 = true := by
      rw [streamStep_closed_eq]
      exact Bool.true_or _
    simp only [streamRun, List.filter_append, hst, ih,
      streamStep_closed_no_close, List.nil_append]

/-- A close trigger processed while active closes the bridge, notifies the
caller with the trigger's payload, and half-closes the transport stream. -/
theorem streamStep_trigger_active (mc : Nat → Nat) (wf : Req → Bool)
    (ev : StreamEvent Req Resp) (h : isCloseTrigger ev = true) :
    streamStep mc wf false ev =
      (true, [Action.callOnClose (triggerErr mc ev), Action.grpcEndCall]) := by
  cases ev <;> simp [isCloseTrigger] at h <;>
    simp [streamStep, closeTransition, triggerErr]

/-- An event that is not a close trigger emits no close-notification. -/
theorem streamStep_no_trigger_no_close (mc : Nat → Nat) (wf : Req → Bool)
    (closed : Bool) (ev : StreamEvent Req Resp) (h : isCloseTrigger ev = false) :
    ((streamStep mc wf closed ev).2.filter isCallOnClose) = [] := by
  cases ev <;> simp [isCloseTrigger] at h <;> cases closed <;>
    simp [streamStep, closeTransition, isCallOnClose] <;>
    split <;> simp [isCallOnClose]

/-- The close-notifications of a run from the active state are exactly
`closeOut`: one for the first close trigger of the trace, none without a
trigger. -/
theorem streamRun_close_actions (mc : Nat → Nat) (wf : Req → Bool)
    (evs : List (StreamEvent Req Resp)) :
    ((streamRun mc wf false evs).2.filter isCallOnClose) = closeOut mc evs := by
  induction evs with
  | nil => rfl
  | cons ev evs ih =>
    by_cases h : isCloseTrigger ev = true
    · have hstep := streamStep_trigger_active mc wf ev h
      simp only [streamRun, hstep, List.filter_append]
      rw [streamRun_closed_no_close]
      simp [closeOut, List.find?_cons_of_pos _ h, isCallOnClose]
    · have h2 : isCloseTrigger ev = false := by
        cases hh : isCloseTrigger ev
        · rfl
        · exact absurd hh h
      have hst : (streamStep mc wf false ev).1 = false := by
        rw [streamStep_closed_eq, h2]
        rfl
      have hfind : List.find? isCloseTrigger (ev :: evs) = List.find? isCloseTrigger evs :=
        List.find?_cons_of_neg evs (by simp [h2])
      simp only [streamRun, List.filter_append, hst, ih,
        streamStep_no_trigger_no_close mc wf false ev h2, List.nil_append]
      simp [closeOut, hfind]

/-- C1: across any interleaving of the three close triggers (local
`close()`, remote end-of-stream, remote error), `callOnClose` is invoked
exactly once, by the first trigger of the trace, with that trigger's
payload; a trace without a trigger produces no close-notification; and any
trigger processed after the bridge is closed — including a repeated
`close()` — is a complete no-op. -/
theorem stream_close_exactly_once (mc : Nat → Nat) (wf : Req → Bool)
    (evs : List (StreamEvent Req Resp)) (ev : StreamEvent Req Resp)
    (h : isCloseTrigger ev = true) :
    ((streamRun mc wf false evs).2.filter isCallOnClose) = closeOut mc evs
    ∧ streamStep mc wf true ev = (true, []) := by
  constructor
  · exact streamRun_close_actions mc wf evs
  · cases ev <;> simp [isCloseTrigger] at h <;>
      simp [streamStep, closeTransition]

/-- Witness for C1: a trace with the open timer, a message, a local
close(), a remote end, a remote error, and a repeated close() yields
exactly one close-notification, carried by the first trigger (the local
close), and a close trigger in the closed state is a no-op. -/
theorem stream_close_exactly_once_witness :
    ((streamRun (fun c => c) (fun m => decide (m = 13)) false
        ([StreamEvent.timerOpen, StreamEvent.grpcData 5, StreamEvent.localClose,
          StreamEvent.grpcEnd, StreamEvent.grpcError 14 "unavailable",
          StreamEvent.localClose] : List (StreamEvent Nat Nat))).2.filter isCallOnClose) =
      [Action.callOnClose none]
    ∧ streamStep (fun c => c) (fun m => decide (m = 13)) true
        (StreamEvent.grpcEnd : StreamEvent Nat Nat) = (true, []) := by
  have h := stream_close_exactly_once (fun c => c) (fun m => decide (m = 13))
    ([StreamEvent.timerOpen, StreamEvent.grpcData 5, StreamEvent.localClose,
      StreamEvent.grpcEnd, StreamEvent.grpcError 14 "unavailable",
      StreamEvent.localClose] : List (StreamEvent Nat Nat))
    StreamEvent.grpcEnd rfl
  exact ⟨by rw [h.1]; rfl, h.2⟩

/-- C9: a `status` or `finish` transport signal reaching the bridge after a
trace that contains a close trigger passes the assertion silently (no
action at all, in particular no error delivery); after a trace without a
close trigger the bridge is still active and the signal is a fatal
assertion failure with the source's message, not a translated error. -/
theorem post_close_signal_assertion (mc : Nat → Nat) (wf : Req → Bool)
    (evs : List (StreamEvent Req Resp)) (code : Nat) (details : String) :
    (streamStep mc wf (streamRun mc wf false evs).1
        (StreamEvent.grpcStatus code details : StreamEvent Req Resp)).2 =
      (if evs.any isCloseTrigger then []
       else [Action.assertFail
          ("status event received before \"end\" or \"error\". code: " ++
            toString code ++ " details: " ++ details)])
    ∧ (streamStep mc wf (streamRun mc wf false evs).1
        (StreamEvent.grpcFinish : StreamEvent Req Resp)).2 =
      (if evs.any isCloseTrigger then []
       else [Action.assertFail "Received \"finish\" event without close() being called."]) := by
  rw [streamRun_closed_eq]
  cases hany : evs.any isCloseTrigger <;>
    simp [streamStep]

/-- After the bridge closes, a trace that does not contain the open timer
produces no action at all: messages are dropped, triggers are no-ops, and
the post-close assertions pass silently. -/
theorem streamRun_closed_silent (mc : Nat → Nat) (wf : Req → Bool)
    (evs : List (StreamEvent Req Resp))
    (h : evs.all (fun e => !(isTimerOpen e)) = true) :
    streamRun mc wf true evs = (true, []) := by
  induction evs with
  | nil => rfl
  | cons ev evs ih =>
    rw [List.all_cons] at h
    obtain ⟨h1, h2⟩ := Bool.and_eq_true_iff.mp h
    have hstep : streamStep mc wf true ev = (true, []) := by
      cases ev <;> simp [isTimerOpen] at h1 <;>
        simp [streamStep, closeTransition]
    simp [streamRun, hstep, ih h2]

/-- The caller-visible callbacks of a run from the active state over a
trace without the open timer: messages delivered while active, then the
close-notification of the first trigger (if any), and nothing after it. -/
theorem streamRun_active_caller_actions (mc : Nat → Nat) (wf : Req → Bool)
    (evs : List (StreamEvent Req Resp))
    (h : evs.all (fun e => !(isTimerOpen e)) = true) :
    ∃ msgs : List Resp,
      ((streamRun mc wf false evs).2.filter isCallerCallback) =
        msgs.map Action.callOnMessage ++ closeOut mc evs := by
  induction evs with
  | nil => exact ⟨[], rfl⟩
  | cons ev evs ih =>
    rw [List.all_cons] at h
    obtain ⟨h1, h2⟩ := Bool.and_eq_true_iff.mp h
    cases ev with
    | send msg =>
      obtain ⟨msgs, hm⟩ := ih h2
      refine ⟨msgs, ?_⟩
      have hfind : List.find? isCloseTrigger (StreamEvent.send msg :: evs) =
          List.find? isCloseTrigger evs := List.find?_cons_of_neg evs (by simp [isCloseTrigger])
      cases hw : wf msg <;>
        simp [streamRun, streamStep, hw, List.filter_append, isCallerCallback, hm,
          closeOut, hfind]
    | localClose =>
      refine ⟨[], ?_⟩
      have hstep := streamStep_trigger_active mc wf
        (StreamEvent.localClose : StreamEvent Req Resp) rfl
      simp only [streamRun, hstep, List.filter_append]
      rw [streamRun_closed_silent mc wf evs h2]
      simp [isCallerCallback, triggerErr, closeOut, List.find?_cons_of_pos, isCloseTrigger]
    | grpcData msg =>
      obtain ⟨msgs, hm⟩ := ih h2
      refine ⟨msg :: msgs, ?_⟩
      have hfind : List.find? isCloseTrigger (StreamEvent.grpcData msg :: evs) =
          List.find? isCloseTrigger evs := List.find?_cons_of_neg evs (by simp [isCloseTrigger])
      simp [streamRun, streamStep, List.filter_append, isCallerCallback, hm,
        closeOut, hfind]
    | grpcEnd =>
      refine ⟨[], ?_⟩
      have hstep := streamStep_trigger_active mc wf
        (StreamEvent.grpcEnd : StreamEvent Req Resp) rfl
      simp only [streamRun, hstep, List.filter_append]
      rw [streamRun_closed_silent mc wf evs h2]
      simp [isCallerCallback, triggerErr, closeOut, List.find?_cons_of_pos, isCloseTrigger]
    | grpcFinish =>
      obtain ⟨msgs, hm⟩ := ih h2
      refine ⟨msgs, ?_⟩
      have hfind : List.find? isCloseTrigger
            ((StreamEvent.grpcFinish : StreamEvent Req Resp) :: evs) =
          List.find? isCloseTrigger evs := List.find?_cons_of_neg evs (by simp [isCloseTrigger])
      simp [streamRun, streamStep, List.filter_append, isCallerCallback, hm,
        closeOut, hfind]
    | grpcError code message =>
      refine ⟨[], ?_⟩
      have hstep := streamStep_trigger_active mc wf
        (StreamEvent.grpcError code message : StreamEvent Req Resp) rfl
      simp only [streamRun, hstep, List.filter_append]
      rw [streamRun_closed_silent mc wf evs h2]
      simp [isCallerCallback, triggerErr, closeOut, List.find?_cons_of_pos, isCloseTrigger]
    | grpcStatus code details =>
      obtain ⟨msgs, hm⟩ := ih h2
      refine ⟨msgs, ?_⟩
      have hfind : List.find? isCloseTrigger (StreamEvent.grpcStatus code details :: evs) =
          List.find? isCloseTrigger evs := List.find?_cons_of_neg evs (by simp [isCloseTrigger])
      simp [streamRun, streamStep, List.filter_append, isCallerCallback, hm,
        closeOut, hfind]
    | timerOpen => simp [isTimerOpen] at h1

/-- C2 fails as stated: when the caller invokes `close()` synchronously
after `openStream` returns, before the zero-delay timer that simulates
`open` has fired, the unguarded `callOnOpen` still fires on the next turn
of the event loop, so the caller observes `open` after `close` — an event
is delivered after the terminal close, and `open` is not first. -/
theorem stream_order_counterexample :
    ((streamRun (fun c => c) (fun _ => false) false
        ([StreamEvent.localClose, StreamEvent.timerOpen] :
          List (StreamEvent Nat Nat))).2.filter isCallerCallback) =
      [Action.callOnClose none, Action.callOnOpen] := by
  rfl

/-- C2 (amended): provided the simulated-open timer fires before every
other bridge event (and fires only once), the caller-visible callbacks are
strictly ordered: `callOnOpen` first and exactly once, then the messages
delivered while active, then the close-notification of the first close
trigger (exactly one when the trace holds a trigger, none otherwise), and
no callback of any kind after it.  Without that proviso a close trigger
racing ahead of the timer makes `open` arrive after `close`. -/
theorem stream_event_order (mc : Nat → Nat) (wf : Req → Bool)
    (evs : List (StreamEvent Req Resp))
    (h : evs.all (fun e => !(isTimerOpen e)) = true) :
    ∃ msgs : List Resp,
      ((streamRun mc wf false (StreamEvent.timerOpen :: evs)).2.filter isCallerCallback) =
        Action.callOnOpen :: (msgs.map Action.callOnMessage ++ closeOut mc evs) := by
  obtain ⟨msgs, hm⟩ := streamRun_active_caller_actions mc wf evs h
  refine ⟨msgs, ?_⟩
  simp [streamRun, streamStep, List.filter_append, isCallerCallback, hm]

/-- Witness for C2: with the timer first, a trace delivering the messages
5 and 6 and then a remote end yields open, the two messages in order, and
a single clean close. -/
theorem stream_event_order_witness :
    ∃ msgs : List Nat,
      ((streamRun (fun c => c) (fun _ => false) false
          (StreamEvent.timerOpen ::
            ([StreamEvent.grpcData 5, StreamEvent.grpcData 6, StreamEvent.grpcEnd,
              StreamEvent.grpcStatus 0 "done"] :
              List (StreamEvent Nat Nat)))).2.filter isCallerCallback) =
        Action.callOnOpen ::
          (msgs.map Action.callOnMessage ++
            closeOut (fun c => c)
              ([StreamEvent.grpcData 5, StreamEvent.grpcData 6, StreamEvent.grpcEnd,
                StreamEvent.grpcStatus 0 "done"] : List (StreamEvent Nat Nat))) :=
  stream_event_order (fun c => c) (fun _ => false) _ (by decide)

/-- A run over a concatenated trace is the run over the first part followed
by the run over the second part from the reached state. -/
theorem streamRun_append (mc : Nat → Nat) (wf : Req → Bool) (closed : Bool)
    (evs1 evs2 : List (StreamEvent Req Resp)) :
    streamRun mc wf closed (evs1 ++ evs2) =
      ((streamRun mc wf (streamRun mc wf closed evs1).1 evs2).1,
        (streamRun mc wf closed evs1).2 ++
          (streamRun mc wf (streamRun mc wf closed evs1).1 evs2).2) := by
  induction evs1 generalizing closed with
  | nil => simp [streamRun]
  | cons ev evs ih => simp [streamRun, ih, List.append_assoc]

/-- C6: while the bridge is active, `send` forwards the message to
`grpcStream.write`, and a transport-level write failure is rethrown
synchronously to the caller of `send` with the state left active (no close
transition); while closed, `send` is a silent no-op (no write, no error);
and a `send` arriving on a trace with no close trigger — in particular
before the simulated open has fired — is still forwarded to the transport
write. -/
theorem send_semantics (mc : Nat → Nat) (wf : Req → Bool) (msg : Req)
    (evs : List (StreamEvent Req Resp))
    (hnotrig : evs.all (fun e => !(isCloseTrigger e)) = true) :
    streamStep mc wf false (StreamEvent.send msg : StreamEvent Req Resp) =
      (false, if wf msg then [Action.sendThrow] else [Action.grpcWrite msg])
    ∧ streamStep mc wf true (StreamEvent.send msg : StreamEvent Req Resp) = (true, [])
    ∧ (streamRun mc wf false (evs ++ [StreamEvent.send msg])).2 =
        (streamRun mc wf false evs).2 ++
          (if wf msg then [Action.sendThrow] else [Action.grpcWrite msg]) := by
  have hany : evs.any isCloseTrigger = false := by
    rw [List.all_eq_true] at hnotrig
    rw [List.any_eq_false]
    intro e he
    simpa using hnotrig e he
  have hstate : (streamRun mc wf false evs).1 = false := by
    rw [streamRun_closed_eq, hany]
    rfl
  refine ⟨?_, ?_, ?_⟩
  · cases hw : wf msg <;> simp [streamStep, hw]
  · simp [streamStep]
  · rw [streamRun_append, hstate]
    cases hw : wf msg <;> simp [streamRun, streamStep, hw]

/-- Witness for C6: a write-failure predicate rejecting message 13 makes
`send 13` rethrow while `send 1` is forwarded, a closed bridge drops the
message silently, and a `send` on the empty trace — before the open timer
fired — reaches the transport write. -/
theorem send_semantics_witness :
    streamStep (fun c => c) (fun m => decide (m = 13)) false
        (StreamEvent.send 13 : StreamEvent Nat Nat) = (false, [Action.sendThrow])
    ∧ streamStep (fun c => c) (fun m => decide (m = 13)) true
        (StreamEvent.send 13 : StreamEvent Nat Nat) = (true, [])
    ∧ (streamRun (fun c => c) (fun m => decide (m = 13)) false
        (([] : List (StreamEvent Nat Nat)) ++ [StreamEvent.send 1])).2 =
      (streamRun (fun c => c) (fun m => decide (m = 13)) false
        ([] : List (StreamEvent Nat Nat))).2 ++ [Action.grpcWrite 1] := by
  have h13 := send_semantics (fun c => c) (fun m => decide (m = 13)) 13
    ([] : List (StreamEvent Nat Nat)) (by decide)
  have h1 := send_semantics (fun c => c) (fun m => decide (m = 13)) 1
    ([] : List (StreamEvent Nat Nat)) (by decide)
  exact ⟨by simpa using h13.1, h13.2.1, by simpa using h1.2.2⟩

end StreamTheorems

/-! Theorems about the unary and streaming-collect adapters. -/

section RpcTheorems

variable {Resp : Type}

/-- Accumulating a block of `data` events appends them, in delivery order,
to the `results` array without settling the future. -/
theorem collect_foldl_data (mc : Nat → Nat) (rs acc : List Resp) :
    ((rs.map ReadEvent.data).foldl (collectStep mc)
        { results := acc, settled := none }) =
      { results := acc ++ rs, settled := none } := by
  induction rs generalizing acc with
  | nil => simp
  | cons r rs ih =>
    simp only [List.map_cons, List.foldl_cons, collectStep]
    rw [ih]
    simp

/-- A settled future stays settled with the same outcome across any later
event. -/
theorem collectStep_settled_mono (mc : Nat → Nat) (st : CollectState Resp)
    (ev : ReadEvent Resp) (o : Except FirestoreError (List Resp))
    (h : st.settled = some o) : (collectStep mc st ev).settled = some o := by
  cases ev <;> simp [collectStep, h]

/-- A settled future stays settled with the same outcome across any later
trace. -/
theorem collect_foldl_settled_mono (mc : Nat → Nat)
    (evs : List (ReadEvent Resp)) (st : CollectState Resp)
    (o : Except FirestoreError (List Resp)) (h : st.settled = some o) :
    (evs.foldl (collectStep mc) st).settled = some o := by
  induction evs generalizing st with
  | nil => exact h
  | cons ev evs ih => exact ih _ (collectStep_settled_mono mc st ev o h)

/-- C4: a stream delivering the responses `rs` and then a clean end makes
the promise resolve with exactly `rs` in delivery order (the empty
sequence when end fires before any response); an error as first terminal
signal makes it reject with the `mapCodeFromRpcCode`-translated domain
error, discarding every accumulated response; and whichever terminal
signal settles the promise first fixes the outcome against any later
events. -/
theorem invokeStreamingRPC_correct (mc : Nat → Nat) (rs : List Resp)
    (code : Nat) (message : String) (evs more : List (ReadEvent Resp))
    (o : Except FirestoreError (List Resp))
    (hsettled : invokeStreamingRPC mc evs = some o) :
    invokeStreamingRPC mc (rs.map ReadEvent.data ++ [ReadEvent.endOfStream]) =
      some (Except.ok rs)
    ∧ invokeStreamingRPC mc (rs.map ReadEvent.data ++ [ReadEvent.streamError code message]) =
      some (Except.error { code := mc code, message := message })
    ∧ invokeStreamingRPC mc (evs ++ more) = some o := by
  refine ⟨?_, ?_, ?_⟩
  · rw [invokeStreamingRPC, List.foldl_append, collect_foldl_data]
    rfl
  · rw [invokeStreamingRPC, List.foldl_append, collect_foldl_data]
    rfl
  · rw [invokeStreamingRPC, List.foldl_append]
    exact collect_foldl_settled_mono mc more _ o hsettled

/-- Witness for C4: an immediate end resolves with the empty sequence, the
responses 1 and 2 followed by end resolve as `[1, 2]`, an error with
transport code 14 after them rejects with the translated error, and the
settled outcome survives a later stray event. -/
theorem invokeStreamingRPC_correct_witness :
    invokeStreamingRPC (fun c => c + 100)
        (([1, 2] : List Nat).map ReadEvent.data ++ [ReadEvent.endOfStream]) =
      some (Except.ok [1, 2])
    ∧ invokeStreamingRPC (fun c => c + 100)
        (([1, 2] : List Nat).map ReadEvent.data ++ [ReadEvent.streamError 14 "unavailable"]) =
      some (Except.error { code := 114, message := "unavailable" })
    ∧ invokeStreamingRPC (fun c => c + 100)
        (([ReadEvent.endOfStream] : List (ReadEvent Nat)) ++ [ReadEvent.data 9]) =
      some (Except.ok []) := by
  have h := invokeStreamingRPC_correct (fun c => c + 100) ([1, 2] : List Nat)
    14 "unavailable" ([ReadEvent.endOfStream] : List (ReadEvent Nat)) [ReadEvent.data 9]
    (Except.ok []) rfl
  exact ⟨h.1, by simpa using h.2.1, h.2.2⟩

/-- C5: the future returned by `invokeRPC` settles on the first callback
invocation the transport performs: a transport error with status code `X`
rejects with a `FirestoreError` of kind `mapCodeFromRpcCode X` carrying the
transport message, a success resolves with the single response value, and
the settled result is an `ok` exactly when it is not an `error` — exactly
one of resolve and reject occurs. -/
theorem invokeRPC_settles_once (mc : Nat → Nat) (o : UnaryOutcome Resp)
    (rest : List (UnaryOutcome Resp)) :
    invokeRPC mc (o :: rest) = some (invokeRPCCallback mc o)
    ∧ (∀ code message,
        invokeRPCCallback mc (UnaryOutcome.failure code message : UnaryOutcome Resp) =
          Except.error { code := mc code, message := message })
    ∧ (∀ value : Resp, invokeRPCCallback mc (UnaryOutcome.success value) = Except.ok value)
    ∧ (((∃ value, invokeRPCCallback mc o = Except.ok value) ∧
          ¬(∃ e, invokeRPCCallback mc o = Except.error e)) ∨
        ((∃ e, invokeRPCCallback mc o = Except.error e) ∧
          ¬(∃ value, invokeRPCCallback mc o = Except.ok value))) := by
  refine ⟨rfl, fun code message => rfl, fun value => rfl, ?_⟩
  cases o with
  | failure code message =>
    right
    refine ⟨⟨{ code := mc code, message := message }, rfl⟩, ?_⟩
    rintro ⟨v, hv⟩
    simp [invokeRPCCallback] at hv
  | success value =>
    left
    refine ⟨⟨value, rfl⟩, ?_⟩
    rintro ⟨e, he⟩
    simp [invokeRPCCallback] at he

end RpcTheorems

end GrpcConnection
